import Mathlib

/-
Verification of the MongoDBDatabase wrapper (langchain/mongodb_database.py)
and its tool adapters (langchain/tools/mongodb_database/tool.py).

The embedding is shallow: Python strings are Lean `String` values (one
`Char` per code point), Python lists are Lean lists, and a Python `set` is
represented by the duplicate-free list of its distinct elements, in a fixed
order (CPython iterates a given set in a fixed, deterministic order within
one process; the embedding fixes first-occurrence order).  Exceptions are
values of an inductive type, and a function that can raise returns
`Except PyExc _`.  Where a function has an observable database side effect
(commands sent, per-collection queries issued) the embedded function
additionally returns the count of those effects.
-/

/-- A value stored in a document field: either a Python string, or any
non-string value carried with its textual representation. -/
inductive PyValue where
  | str (s : String)
  | nonStr (r : String)
deriving DecidableEq

/-- A BSON document: an ordered mapping from field names to values, in
Python dict iteration order. -/
abbrev Doc := List (String × PyValue)

/-- A MongoDB database snapshot: the named collections with their documents,
in natural listing order. -/
structure Database where
  collections : List (String × List Doc)
deriving DecidableEq

/-- The names returned by `self._db.list_collection_names()`. -/
def Database.list_collection_names (db : Database) : List String :=
  db.collections.map Prod.fst

/-- The documents of collection `name`; accessing a collection that does not
exist behaves as an empty collection, as in MongoDB. -/
def Database.docsOf (db : Database) (name : String) : List Doc :=
  (db.collections.lookup name).getD []

/-- Python exception values raised by the wrapper code: `ValueError`,
`TypeError`, `StopIteration` (from an exhausted cursor), and the driver
exception class `pymongo.errors.PyMongoError`. -/
inductive PyExc where
  | valueError (msg : String)
  | typeError (msg : String)
  | stopIteration
  | pyMongoError (msg : String)
deriving DecidableEq

/-- Whether an exception value belongs to the Python class `ValueError`
(`TypeError`, `StopIteration` and `PyMongoError` are not `ValueError`
subclasses). -/
def PyExc.isValueErrorClass : PyExc → Bool
  | .valueError _ => true
  | _ => false

/-- Python string slicing `s[:n]`: the first `n` code points of `s`. -/
def pySlice (s : String) (n : Nat) : String :=
  ⟨s.data.take n⟩

/-- Python `sep.join(parts)`. -/
def joinSep (sep : String) : List String → String
  | [] => ""
  | [x] => x
  | x :: y :: xs => x ++ sep ++ joinSep sep (y :: xs)

/-- Python `set(l)` as its duplicate-free element list. -/
def pySet (l : List String) : List String :=
  l.dedup

/-- Python set difference `a - b` on set representatives. -/
def setDiff (a b : List String) : List String :=
  a.filter (fun x => decide (x ∉ b))

/-- Python rendering `f"\x7bs\x7d"` of a set of strings, as in
`str(\x7b"a", "b"\x7d)`. -/
def pyReprStrSet (l : List String) : String :=
  "\x7b" ++ joinSep ", " (l.map (fun n => "\x27" ++ n ++ "\x27")) ++ "\x7d"

/-- Python `s.split(", ")` on the underlying character list: split on the
exact two-character separator, scanning left to right. -/
def splitCommaSpaceChars : List Char → List (List Char)
  | [] => [[]]
  | ',' :: ' ' :: rest => [] :: splitCommaSpaceChars rest
  | c :: rest =>
    match splitCommaSpaceChars rest with
    | [] => [[c]]
    | h :: t => (c :: h) :: t

/-- Python `s.split(", ")`. -/
def pySplitCommaSpace (s : String) : List String :=
  (splitCommaSpaceChars s.data).map String.mk

/-- Modelled from the spec: `truncate_word` is imported from
`langchain.utils`, whose source file is not part of this repository
snapshot.  Per the spec (4.4), if the value is a string whose length
exceeds `length`, the result is its first `length` characters followed by
the ellipsis marker "..."; otherwise the value is returned unchanged. -/
def truncate_word (content : PyValue) (length : Nat) : PyValue :=
  match content with
  | .str s => if s.length ≤ length then .str s else .str (pySlice s length ++ "...")
  | v => v

/-- Python `repr` of a document value, as it appears inside `str(dict)`. -/
def PyValue.pyRepr : PyValue → String
  | .str s => "\x27" ++ s ++ "\x27"
  | .nonStr r => r

/-- Python `str` of one document (a dict). -/
def pyReprDoc (d : Doc) : String :=
  "\x7b" ++ joinSep ", " (d.map (fun kv => "\x27" ++ kv.1 ++ "\x27: " ++ kv.2.pyRepr)) ++ "\x7d"

/-- Python `str` of a list of documents. -/
def pyReprDocList (ds : List Doc) : String :=
  "[" ++ joinSep ", " (ds.map pyReprDoc) ++ "]"

/-- The per-document conversion in `run`: every value is passed through
`truncate_word` with the configured maximum string length. -/
def truncDoc (maxLen : Nat) (d : Doc) : Doc :=
  d.map (fun kv => (kv.1, truncate_word kv.2 maxLen))

/-- Result of sending a command to the database: either the driver raises a
`PyMongoError`, or a cursor over the result documents is produced. -/
inductive CmdResponse where
  | failure (msg : String)
  | success (docs : List Doc)
deriving DecidableEq

/-- `MongoDBDatabase.run`, embedded over the response of the database to the
issued command (the command itself only matters through that response) and
the configured `_max_string_length`.  The second component counts how many
commands were sent to the database, i.e. the number of `self._db.command`
calls that happen during the call.  The `try`/`except errors.PyMongoError`
block of the source appears as follows: a driver failure is rendered as an
`"Error: "` string, while the `ValueError` raised for an invalid `fetch`
and the `StopIteration` raised by `cursor.next()` on an empty cursor are
not `PyMongoError` and therefore escape to the caller. -/
def MongoDBDatabase.run (resp : CmdResponse) (fetch : String) (maxLen : Nat) :
    Except PyExc String × Nat :=
  match resp with
  | .failure e => (.ok ("Error: " ++ e), 1)
  | .success docs =>
    if fetch = "all" then
      (.ok (pyReprDocList (docs.map (truncDoc maxLen))), 1)
    else if fetch = "one" then
      match docs with
      | [] => (.error .stopIteration, 1)
      | d :: _ => (.ok (pyReprDoc (truncDoc maxLen d)), 1)
    else
      (.error (.valueError "Fetch parameter must be either \x27one\x27 or \x27all\x27"), 1)

/-- The body of `get_usable_collection_names` over the three stored sets. -/
def usableNames (include_c all_c ignore_c : List String) : List String :=
  if include_c ≠ [] then include_c else setDiff all_c ignore_c

/-- The state of a constructed `MongoDBDatabase` wrapper. -/
structure MongoDBDatabase where
  db : Database
  all_collections : List String
  include_collections : List String
  ignore_collections : List String
  usable_collections : List String
  sample_docs_in_collection_info : Int
  max_string_length : Nat
deriving DecidableEq

/-- A Python argument value that may or may not be an `int`. -/
inductive PyArg where
  | int (n : Int)
  | nonInt (r : String)
deriving DecidableEq

/-- `MongoDBDatabase.__init__`, embedded as a function from the live
database and the constructor arguments to either the raised exception or
the constructed wrapper.  The order of the checks follows the source:
first the include/ignore mutual-exclusion check, then the snapshot of all
collection names, then the include and ignore membership validations, then
the usable-collection computation, and only then the integer check on
`sample_docs_in_collection_info`. -/
def MongoDBDatabase.init (db : Database) (ignore_collections include_collections : List String)
    (sample_docs_in_collection_info : PyArg) (max_string_length : Nat) :
    Except PyExc MongoDBDatabase :=
  if include_collections ≠ [] ∧ ignore_collections ≠ [] then
    .error (.valueError "Cannot specify both include_collections and ignore_collections")
  else
    let all_c := pySet db.list_collection_names
    let inc := pySet include_collections
    if inc ≠ [] ∧ setDiff inc all_c ≠ [] then
      .error (.valueError ("include_collections " ++ pyReprStrSet (setDiff inc all_c) ++
        " not found in database"))
    else
      let ign := pySet ignore_collections
      if ign ≠ [] ∧ setDiff ign all_c ≠ [] then
        .error (.valueError ("ignore_collections " ++ pyReprStrSet (setDiff ign all_c) ++
          " not found in database"))
      else
        let usable := usableNames inc all_c ign
        let usable_c := if usable ≠ [] then usable else all_c
        match sample_docs_in_collection_info with
        | .nonInt _ => .error (.typeError "sample_docs_in_collection_info must be an integer")
        | .int n => .ok ⟨db, all_c, inc, ign, usable_c, n, max_string_length⟩

/-- `MongoDBDatabase.get_usable_collection_names`. -/
def MongoDBDatabase.get_usable_collection_names (self : MongoDBDatabase) : List String :=
  usableNames self.include_collections self.all_collections self.ignore_collections

/-- Concatenation of a list of strings (Python string accumulation with
`+=` in a loop). -/
def concatAll : List String → String
  | [] => ""
  | x :: xs => x ++ concatAll xs

/-- The description block built for one collection by
`get_collection_info`: name, exact document count, and the sample
documents returned by `find().limit(n)` (`limit(0)` means no limit and a
negative limit acts as its absolute value, per pymongo). -/
def describeCollection (db : Database) (sample : Int) (name : String) : String :=
  let docs := db.docsOf name
  let samples := if sample = 0 then docs else docs.take sample.natAbs
  "Collection Name: " ++ name ++ "\nCount: " ++ toString docs.length ++
    "\nSample Documents:" ++ concatAll (samples.map (fun d => "\n" ++ pyReprDoc d))

/-- `MongoDBDatabase.get_collection_info`.  The second component counts the
collections for which per-collection queries (`count_documents` plus the
sample `find`) were issued against the database. -/
def MongoDBDatabase.get_collection_info (self : MongoDBDatabase)
    (collection_names : Option (List String)) : Except PyExc String × Nat :=
  let usable := self.get_usable_collection_names
  match collection_names with
  | some names =>
    let missing := setDiff (pySet names) usable
    if missing ≠ [] then
      (.error (.valueError ("collection_names " ++ pyReprStrSet missing ++
        " not found in database")), 0)
    else
      (.ok (joinSep "\n\n"
        (names.map (describeCollection self.db self.sample_docs_in_collection_info))),
        names.length)
  | none =>
    (.ok (joinSep "\n\n"
      (usable.map (describeCollection self.db self.sample_docs_in_collection_info))),
      usable.length)

/-- Modelled from the spec: `get_collection_info_no_throw`, called by the
info tool, is not part of this repository snapshot (only its caller is).
Per the spec (4.5, 7, glossary), it delegates to `get_collection_info`
and, when the inspector raises its lookup failure for requested collection
names absent from the usable set (realized as a `ValueError` in this code
base), returns the error as a descriptive string instead of raising. -/
def MongoDBDatabase.get_collection_info_no_throw (self : MongoDBDatabase)
    (collection_names : Option (List String)) : Except PyExc String × Nat :=
  match self.get_collection_info collection_names with
  | (.error (.valueError m), q) => (.ok ("Error: " ++ m), q)
  | r => r

/-- `InfoMongoDBTool._run`: split the input on the exact substring ", " and
delegate to the no-throw collection-info variant. -/
def InfoMongoDBTool._run (self : MongoDBDatabase) (collection_names : String) :
    Except PyExc String × Nat :=
  self.get_collection_info_no_throw (some (pySplitCommaSpace collection_names))

/-- `ListMongoDBTool._run`: join the usable collection names with ", ";
the tool input does not occur in the body. -/
def ListMongoDBTool._run (self : MongoDBDatabase) (_tool_input : String) : String :=
  joinSep ", " self.get_usable_collection_names

/-- A sample database with two collections, used by concrete witnesses. -/
def sampleDb : Database :=
  ⟨[("users", [[("name", .str "alice")]]), ("orders", [])]⟩

/-- A wrapper over `sampleDb` with an include filter, as produced by
`MongoDBDatabase.init sampleDb [] ["users"] (.int 3) 300`. -/
def mInclude : MongoDBDatabase :=
  ⟨sampleDb, ["users", "orders"], ["users"], [], ["users"], 3, 300⟩

/-- A wrapper over `sampleDb` with an ignore filter, as produced by
`MongoDBDatabase.init sampleDb ["orders"] [] (.int 3) 300`. -/
def mIgnore : MongoDBDatabase :=
  ⟨sampleDb, ["users", "orders"], [], ["orders"], ["users"], 3, 300⟩

/-- The character list of an appended string. -/
theorem strData_append (s t : String) : (s ++ t).data = s.data ++ t.data :=
  String.data_append s t

/-- The length of a slice `s[:n]` when `n` is within range. -/
theorem pySlice_length {s : String} {n : Nat} (h : n ≤ s.length) :
    (pySlice s n).length = n := by
  show (s.data.take n).length = n
  simp [List.length_take]
  exact h

/-- Set difference with the empty set changes nothing. -/
theorem setDiff_nil (a : List String) : setDiff a [] = a := by
  simp [setDiff]

/-- A nonempty list has a nonempty set of distinct elements. -/
theorem pySet_ne_nil {l : List String} (h : l ≠ []) : pySet l ≠ [] := by
  match l, h with
  | x :: xs, _ =>
    exact List.ne_nil_of_mem (List.mem_dedup.mpr (List.mem_cons_self x xs))

/-- C1: for every wrapper state, `get_usable_collection_names` returns the
include set when it is non-empty, otherwise the set of all collections in
the snapshot minus the ignore set, which in turn is the set of all
collections when the ignore set is empty. -/
theorem C1_get_usable_collection_names (m : MongoDBDatabase) :
    (m.include_collections ≠ [] →
      m.get_usable_collection_names = m.include_collections) ∧
    (m.include_collections = [] →
      m.get_usable_collection_names = setDiff m.all_collections m.ignore_collections) ∧
    (m.include_collections = [] → m.ignore_collections = [] →
      m.get_usable_collection_names = m.all_collections) := by
  refine ⟨fun h => ?_, fun h => ?_, fun h h2 => ?_⟩
  · simp [MongoDBDatabase.get_usable_collection_names, usableNames, h]
  · simp [MongoDBDatabase.get_usable_collection_names, usableNames, h]
  · simp [MongoDBDatabase.get_usable_collection_names, usableNames, h, h2, setDiff_nil]

/-- Concrete instances of C1 on the sample wrappers: the include filter wins
when present, and the ignore filter is subtracted otherwise. -/
theorem C1_witness :
    mInclude.get_usable_collection_names = ["users"] ∧
    mIgnore.get_usable_collection_names = ["users"] :=
  ⟨(C1_get_usable_collection_names mInclude).1 (by decide),
   ((C1_get_usable_collection_names mIgnore).2.1 rfl).trans (by decide)⟩

/-- C9: the list tool returns the usable collection names joined with ", ";
its output does not depend on the tool input, so any two invocations on the
same wrapper return the identical string. -/
theorem C9_list_tool_deterministic (m : MongoDBDatabase) (i₁ i₂ : String) :
    ListMongoDBTool._run m i₁ = ListMongoDBTool._run m i₂ ∧
    ListMongoDBTool._run m i₁ = joinSep ", " m.get_usable_collection_names :=
  ⟨rfl, rfl⟩

/-- C5: for every database-level failure, `run` catches the driver exception
and returns the string "Error: " followed by the message, raising nothing,
whatever the fetch mode and configured maximum string length. -/
theorem C5_run_catches_database_errors (e : String) (fetch : String) (maxLen : Nat) :
    MongoDBDatabase.run (.failure e) fetch maxLen = (.ok ("Error: " ++ e), 1) :=
  rfl

/-- C2 as stated is false: with zero result documents and fetch "one", the
exception that escapes `run` is `StopIteration` (raised by `cursor.next()`
on an exhausted cursor), which is not a ValueError-class exception. -/
theorem C2_counterexample :
    MongoDBDatabase.run (.success []) "one" 300 = (.error .stopIteration, 1) ∧
    PyExc.isValueErrorClass .stopIteration = false :=
  ⟨rfl, rfl⟩

/-- C2 amended: on zero result documents, fetch "one" raises an exception
that propagates to the caller uncaught (it is `StopIteration`, not a
ValueError-class error), while fetch "all" returns the string rendering
"[]" of an empty sequence and raises nothing. -/
theorem C2_run_zero_documents (maxLen : Nat) :
    MongoDBDatabase.run (.success []) "one" maxLen = (.error .stopIteration, 1) ∧
    MongoDBDatabase.run (.success []) "all" maxLen = (.ok "[]", 1) ∧
    PyExc.isValueErrorClass .stopIteration = false := by
  refine ⟨rfl, ?_, rfl⟩
  show (Except.ok (pyReprDocList []), 1) = (Except.ok "[]", 1)
  rfl

/-- C3 as stated is false: with an invalid fetch value, the command has
already been sent to the database (the sent-command count is 1, not 0)
before the fetch value is examined. -/
theorem C3_counterexample :
    MongoDBDatabase.run (.success []) "two" 300 =
      (.error (.valueError "Fetch parameter must be either \x27one\x27 or \x27all\x27"), 1) ∧
    (MongoDBDatabase.run (.success []) "two" 300).2 ≠ 0 :=
  ⟨rfl, by decide⟩

/-- C3 amended: for every fetch value other than "all" and "one", `run`
sends the command to the database first (exactly one command is sent), and
then, when the command itself succeeded, raises the ValueError-class fetch
contract error. -/
theorem C3_run_invalid_fetch (resp : CmdResponse) (fetch : String) (maxLen : Nat)
    (h1 : fetch ≠ "all") (h2 : fetch ≠ "one") :
    (MongoDBDatabase.run resp fetch maxLen).2 = 1 ∧
    (∀ docs, resp = .success docs →
      (MongoDBDatabase.run resp fetch maxLen).1 =
        .error (.valueError "Fetch parameter must be either \x27one\x27 or \x27all\x27")) := by
  cases resp with
  | failure e => exact ⟨rfl, fun docs h => by cases h⟩
  | success docs =>
    refine ⟨?_, fun ds h => ?_⟩ <;>
      simp [MongoDBDatabase.run, h1, h2]

/-- Concrete instance of C3 amended: fetch "two" on a succeeding command
sends one command and raises the fetch ValueError. -/
theorem C3_witness :
    (MongoDBDatabase.run (.success []) "two" 300).2 = 1 ∧
    (MongoDBDatabase.run (.success []) "two" 300).1 =
      .error (.valueError "Fetch parameter must be either \x27one\x27 or \x27all\x27") :=
  ⟨(C3_run_invalid_fetch (.success []) "two" 300 (by decide) (by decide)).1,
   (C3_run_invalid_fetch (.success []) "two" 300 (by decide) (by decide)).2 [] rfl⟩

/-- C7: whenever both the include and the ignore filter are non-empty,
construction fails with the mutual-exclusivity configuration error; the
database snapshot is arbitrary, so the check does not depend on whether the
named collections exist. -/
theorem C7_both_filters_rejected (db : Database) (ign inc : List String)
    (sd : PyArg) (ml : Nat) (h1 : inc ≠ []) (h2 : ign ≠ []) :
    MongoDBDatabase.init db ign inc sd ml =
      .error (.valueError "Cannot specify both include_collections and ignore_collections") := by
  unfold MongoDBDatabase.init
  rw [if_pos ⟨h1, h2⟩]

/-- Concrete instance of C7: an empty database and two filter names that do
not exist anywhere still trigger the mutual-exclusivity error. -/
theorem C7_witness :
    MongoDBDatabase.init ⟨[]⟩ ["ghost2"] ["ghost1"] (.int 3) 300 =
      .error (.valueError "Cannot specify both include_collections and ignore_collections") :=
  C7_both_filters_rejected ⟨[]⟩ ["ghost2"] ["ghost1"] (.int 3) 300 (by decide) (by decide)

/-- The length of an appended string is the sum of the lengths. -/
theorem strLength_append (s t : String) : (s ++ t).length = s.length + t.length := by
  show (s ++ t).data.length = s.data.length + t.data.length
  rw [strData_append, List.length_append]

/-- Taking the first n characters of a string whose first n characters are
a full block leaves that block. -/
theorem pySlice_append_of_length {s : String} {n : Nat} (t : String)
    (h : s.length = n) : pySlice (s ++ t) n = s := by
  show String.mk ((s ++ t).data.take n) = s
  rw [strData_append, List.take_left' h]

/-- C4: for every string s and every length n, truncate_word returns s
unchanged when the length of s is at most n; returns exactly the first n
characters of s followed by the ellipsis marker "..." when s is longer
than n; is idempotent when re-applied with the same n; and returns
non-string values unchanged.  (Stated for all n, hence in particular for
every positive n.) -/
theorem C4_truncate_word_spec (s : String) (n : Nat) :
    (s.length ≤ n → truncate_word (.str s) n = .str s) ∧
    (n < s.length →
      truncate_word (.str s) n = .str (pySlice s n ++ "...") ∧
      (pySlice s n).length = n) ∧
    truncate_word (truncate_word (.str s) n) n = truncate_word (.str s) n ∧
    (∀ r, truncate_word (.nonStr r) n = .nonStr r) := by
  refine ⟨fun h => ?_, fun h => ⟨?_, pySlice_length (le_of_lt h)⟩, ?_, fun r => rfl⟩
  · simp [truncate_word, h]
  · simp [truncate_word, Nat.not_le.mpr h]
  · by_cases h : s.length ≤ n
    · simp [truncate_word, h]
    · push_neg at h
      have hone : truncate_word (.str s) n = .str (pySlice s n ++ "...") := by
        simp [truncate_word, Nat.not_le.mpr h]
      have hdots : ("..." : String).length = 3 := by decide
      have hlen : (pySlice s n ++ "...").length = n + 3 := by
        rw [strLength_append, pySlice_length (le_of_lt h), hdots]
      have hgt : ¬ (pySlice s n ++ "...").length ≤ n := by omega
      have htake : pySlice (pySlice s n ++ "...") n = pySlice s n :=
        pySlice_append_of_length "..." (pySlice_length (le_of_lt h))
      rw [hone]
      simp [truncate_word, hgt, htake]

/-- Concrete instances of C4: a short string passes through unchanged, and
the spec example value truncated at 10 renders as "abcdefghij...". -/
theorem C4_witness :
    truncate_word (.str "ab") 3 = .str "ab" ∧
    truncate_word (.str "abcdefghijklmnop") 10 = .str "abcdefghij..." :=
  ⟨(C4_truncate_word_spec "ab" 3).1 (by decide),
   (((C4_truncate_word_spec "abcdefghijklmnop" 10).2.1 (by decide)).1).trans (by decide)⟩

/-- A string is an infix of any string it is wrapped into. -/
theorem infix_strData_append (x pre post : String) :
    x.data <:+: (pre ++ x ++ post).data :=
  ⟨pre.data, post.data, by rw [strData_append (pre ++ x) post, strData_append pre x]⟩

/-- An infix survives appending on the right. -/
theorem infix_strData_left {c : List Char} {x : String} (post : String)
    (h : c <:+: x.data) : c <:+: (x ++ post).data := by
  refine h.trans ⟨[], post.data, ?_⟩
  rw [strData_append]
  simp

/-- An infix survives appending on the left. -/
theorem infix_strData_right {c : List Char} {x : String} (pre : String)
    (h : c <:+: x.data) : c <:+: (pre ++ x).data := by
  refine h.trans ⟨pre.data, [], ?_⟩
  rw [strData_append]
  simp

/-- Every listed name occurs in the quoted, comma-joined rendering. -/
theorem mem_infix_quotedJoin (x : String) (l : List String) (h : x ∈ l) :
    x.data <:+: (joinSep ", " (l.map (fun n => "\x27" ++ n ++ "\x27"))).data := by
  induction l with
  | nil => cases h
  | cons y ys ih =>
    rcases List.mem_cons.mp h with rfl | hmem
    · cases ys with
      | nil => exact infix_strData_append x "\x27" "\x27"
      | cons z zs =>
        exact infix_strData_left _
          (infix_strData_left ", " (infix_strData_append x "\x27" "\x27"))
    · cases ys with
      | nil => cases hmem
      | cons z zs => exact infix_strData_right _ (ih hmem)

/-- Every member of a name set occurs in its Python set rendering. -/
theorem mem_infix_pyReprStrSet (x : String) (l : List String) (h : x ∈ l) :
    x.data <:+: (pyReprStrSet l).data :=
  infix_strData_left "\x7d" (infix_strData_right "\x7b" (mem_infix_quotedJoin x l h))

/-- Every missing name occurs in the missing-collection error message. -/
theorem mem_infix_missingMsg (x : String) (l : List String) (h : x ∈ l) :
    x.data <:+:
      ("collection_names " ++ pyReprStrSet l ++ " not found in database").data :=
  infix_strData_left " not found in database"
    (infix_strData_right "collection_names " (mem_infix_pyReprStrSet x l h))

/-- Membership in a set difference of set representatives. -/
theorem mem_setDiff_pySet {x : String} {a b : List String}
    (hx : x ∈ a) (hxb : x ∉ b) : x ∈ setDiff (pySet a) b := by
  simp [setDiff, pySet, List.mem_filter, List.mem_dedup]
  exact ⟨hx, hxb⟩

/-- The missing-names branch of `get_collection_info`: a raised ValueError
enumerating the missing set, with zero per-collection queries issued. -/
theorem get_collection_info_missing (m : MongoDBDatabase) (names : List String)
    (h : setDiff (pySet names) m.get_usable_collection_names ≠ []) :
    m.get_collection_info (some names) =
      (.error (.valueError ("collection_names " ++
        pyReprStrSet (setDiff (pySet names) m.get_usable_collection_names) ++
        " not found in database")), 0) := by
  simp only [MongoDBDatabase.get_collection_info]
  rw [if_pos h]

/-- C6: whenever the requested collection names contain at least one name
outside the usable set, `get_collection_info` fails with the lookup error
for absent names (a raised exception, realized as the ValueError class in
this code base) whose message enumerates the missing names (every missing
name occurs verbatim in the message), and issues zero per-collection
queries, so no partial output is produced for the valid names. -/
theorem C6_get_collection_info_missing_names (m : MongoDBDatabase)
    (names : List String) (x : String) (hx : x ∈ names)
    (hxu : x ∉ m.get_usable_collection_names) :
    m.get_collection_info (some names) =
      (.error (.valueError ("collection_names " ++
        pyReprStrSet (setDiff (pySet names) m.get_usable_collection_names) ++
        " not found in database")), 0) ∧
    ∀ y ∈ setDiff (pySet names) m.get_usable_collection_names,
      y.data <:+: ("collection_names " ++
        pyReprStrSet (setDiff (pySet names) m.get_usable_collection_names) ++
        " not found in database").data := by
  have hmem : x ∈ setDiff (pySet names) m.get_usable_collection_names :=
    mem_setDiff_pySet hx hxu
  exact ⟨get_collection_info_missing m names (List.ne_nil_of_mem hmem),
    fun y hy => mem_infix_missingMsg y _ hy⟩

/-- Concrete instance of C6, the example of the spec: with the include
filter ["users"], requesting ["orders"] raises the enumerating lookup
error and issues no per-collection query. -/
theorem C6_witness :
    mInclude.get_collection_info (some ["orders"]) =
      (.error (.valueError "collection_names \x7b\x27orders\x27\x7d not found in database"),
        0) :=
  ((C6_get_collection_info_missing_names mInclude ["orders"] "orders"
    (by decide) (by decide)).1).trans (by rfl)

/-- C8: for every input string, the info tool splits the input on the exact
substring ", ", delegates to the schema inspector through the no-throw
wrapper, and when the inspector fails because some requested name is
outside the usable set, the tool returns the lookup error as a string
instead of raising. -/
theorem C8_info_tool_wraps_lookup_error (m : MongoDBDatabase) (input : String) :
    InfoMongoDBTool._run m input =
      m.get_collection_info_no_throw (some (pySplitCommaSpace input)) ∧
    (∀ x ∈ pySplitCommaSpace input, x ∉ m.get_usable_collection_names →
      (InfoMongoDBTool._run m input).1 =
        .ok ("Error: " ++ ("collection_names " ++
          pyReprStrSet (setDiff (pySet (pySplitCommaSpace input))
            m.get_usable_collection_names) ++
          " not found in database"))) := by
  refine ⟨rfl, fun x hx hxu => ?_⟩
  have hmem : x ∈ setDiff (pySet (pySplitCommaSpace input)) m.get_usable_collection_names :=
    mem_setDiff_pySet hx hxu
  have h := get_collection_info_missing m (pySplitCommaSpace input)
    (List.ne_nil_of_mem hmem)
  show (m.get_collection_info_no_throw (some (pySplitCommaSpace input))).1 = _
  unfold MongoDBDatabase.get_collection_info_no_throw
  rw [h]

/-- Concrete instance of C8: requesting the non-usable "orders" through the
info tool returns the lookup error as a string, with no exception. -/
theorem C8_witness :
    (InfoMongoDBTool._run mInclude "orders").1 =
      .ok "Error: collection_names \x7b\x27orders\x27\x7d not found in database" :=
  ((C8_info_tool_wraps_lookup_error mInclude "orders").2 "orders"
    (by decide) (by decide)).trans (by rfl)

/-- C10: with a valid filter configuration, a non-integer
sample_docs_in_collection_info makes construction fail with the TypeError;
and because the filter checks come first, an invalid filter configuration
fails with its own ValueError before the sample-count type is examined,
whether the filters are mutually exclusive or contain unknown names. -/
theorem C10_sample_docs_must_be_integer (db : Database) (ign inc : List String)
    (r : String) (ml : Nat) :
    ((inc = [] ∨ ign = []) →
      setDiff (pySet inc) (pySet db.list_collection_names) = [] →
      setDiff (pySet ign) (pySet db.list_collection_names) = [] →
      MongoDBDatabase.init db ign inc (.nonInt r) ml =
        .error (.typeError "sample_docs_in_collection_info must be an integer")) ∧
    (inc ≠ [] → ign ≠ [] →
      MongoDBDatabase.init db ign inc (.nonInt r) ml =
        .error (.valueError "Cannot specify both include_collections and ignore_collections")) ∧
    (inc ≠ [] → ign = [] →
      setDiff (pySet inc) (pySet db.list_collection_names) ≠ [] →
      MongoDBDatabase.init db ign inc (.nonInt r) ml =
        .error (.valueError ("include_collections " ++
          pyReprStrSet (setDiff (pySet inc) (pySet db.list_collection_names)) ++
          " not found in database"))) := by
  refine ⟨fun hor hincm hignm => ?_, fun h1 h2 => ?_, fun h1 h2 hmiss => ?_⟩
  · have hcond : ¬(inc ≠ [] ∧ ign ≠ []) := by
      rcases hor with h | h <;> simp [h]
    simp only [MongoDBDatabase.init]
    rw [if_neg hcond, if_neg (by simp [hincm]), if_neg (by simp [hignm])]
  · simp only [MongoDBDatabase.init]
    rw [if_pos ⟨h1, h2⟩]
  · have hcond : ¬(inc ≠ [] ∧ ign ≠ []) := by simp [h2]
    simp only [MongoDBDatabase.init]
    rw [if_neg hcond, if_pos ⟨pySet_ne_nil h1, hmiss⟩]

/-- Concrete instances of C10: valid include filter plus a non-integer
sample count yields the TypeError, while both filters non-empty with the
same non-integer sample count yields the filter ValueError instead. -/
theorem C10_witness :
    MongoDBDatabase.init sampleDb [] ["users"] (.nonInt "three") 300 =
      .error (.typeError "sample_docs_in_collection_info must be an integer") ∧
    MongoDBDatabase.init sampleDb ["orders"] ["users"] (.nonInt "three") 300 =
      .error (.valueError "Cannot specify both include_collections and ignore_collections") :=
  ⟨(C10_sample_docs_must_be_integer sampleDb [] ["users"] "three" 300).1
      (Or.inr rfl) (by decide) (by decide),
   (C10_sample_docs_must_be_integer sampleDb ["orders"] ["users"] "three" 300).2.1
      (by decide) (by decide)⟩
